import Mathlib

/-!
Shallow embedding of the drivehard pose-to-control-signal pipeline.

The source is a single TypeScript file.  JavaScript numbers are modelled as
exact rationals (ℚ).  A keypoint score of `undefined` is modelled as `none`
(in JavaScript, `undefined >= 0.3` evaluates to `false`, so an absent score
always fails a confidence gate).  The unchecked keypoint index accesses
`pose.keypoints[i]` are modelled as `Option`-valued lookups; a frame whose
processing would dereference a missing keypoint is mapped to `none`.
-/

namespace DriveHard

/-- A detected landmark: 2D coordinates and an optional confidence score
(source: the `poseDetection.Keypoint` shape used by `runPrediction`). -/
structure Keypoint where
  x : ℚ
  y : ℚ
  score : Option ℚ
deriving DecidableEq, Repr

/-- One pose candidate: its ordered keypoint list. -/
structure Pose where
  keypoints : List Keypoint
deriving DecidableEq, Repr

/-- The mutable per-app smoother state: the two control signals `xInput` and
`yInput`, both initialised to 0.5 in the source. -/
structure AppState where
  xInput : ℚ
  yInput : ℚ
deriving DecidableEq, Repr

/-- `const NOSE_KEYPOINT = 0`. -/
def NOSE_KEYPOINT : Nat := 0

/-- `const LEFT_EAR_KEYPOINT = 3`. -/
def LEFT_EAR_KEYPOINT : Nat := 3

/-- `const RIGHT_EAR_KEYPOINT = 4`. -/
def RIGHT_EAR_KEYPOINT : Nat := 4

/-- `const LEFT_SHOULDER_KEYPOINT = 5`. -/
def LEFT_SHOULDER_KEYPOINT : Nat := 5

/-- `const RIGHT_SHOULDER_KEYPOINT = 6`. -/
def RIGHT_SHOULDER_KEYPOINT : Nat := 6

/-- `const POSE_CONFIDENCE_THRESHOLD = 0.3`. -/
def POSE_CONFIDENCE_THRESHOLD : ℚ := 3 / 10

/-- `const POSE_LERP_FACTOR = 0.1`. -/
def POSE_LERP_FACTOR : ℚ := 1 / 10

/-- `const MOVE_THRESHOLD = 0.1`. -/
def MOVE_THRESHOLD : ℚ := 1 / 10

/-- `const Y_MIN = 0.6`. -/
def Y_MIN : ℚ := 3 / 5

/-- `const Y_MAX = 1.4`. -/
def Y_MAX : ℚ := 7 / 5

/-- The confidence gate `kp.score! >= POSE_CONFIDENCE_THRESHOLD` applied to a
single keypoint; an absent score fails the gate (in JavaScript,
`undefined >= 0.3` is `false`). -/
def confOk : Option ℚ → Bool
  | some s => decide (POSE_CONFIDENCE_THRESHOLD ≤ s)
  | none => false

/-- `pushXInput`: `this.xInput = this.xInput + (xInput - this.xInput) * POSE_LERP_FACTOR`. -/
def pushXInput (s : AppState) (v : ℚ) : AppState :=
  { s with xInput := s.xInput + (v - s.xInput) * POSE_LERP_FACTOR }

/-- `pushYInput`: `this.yInput = this.yInput + (yInput - this.yInput) * POSE_LERP_FACTOR`. -/
def pushYInput (s : AppState) (v : ℚ) : AppState :=
  { s with yInput := s.yInput + (v - s.yInput) * POSE_LERP_FACTOR }

/-- The raw horizontal estimate pushed by the `// X input` block of
`runPrediction`: the shoulder-span ratio when nose and both shoulders pass the
confidence gate, otherwise the neutral value 0.5. -/
def xRaw (nose leftShoulder rightShoulder : Keypoint) : ℚ :=
  if confOk nose.score && confOk leftShoulder.score && confOk rightShoulder.score then
    (nose.x - leftShoulder.x) / (rightShoulder.x - leftShoulder.x)
  else
    1 / 2

/-- The raw vertical estimate of the `// Y input` block of `runPrediction`:
`some` of the clamped scaled nose height when all five confidences pass,
`none` when the gate fails (the source's empty `else` branch: no push). -/
def yRaw (nose leftEar rightEar leftShoulder rightShoulder : Keypoint) : Option ℚ :=
  if confOk leftShoulder.score && confOk rightShoulder.score &&
      confOk leftEar.score && confOk rightEar.score && confOk nose.score then
    let shoulderY := (leftShoulder.y + rightShoulder.y) / 2
    let earY := (leftEar.y + rightEar.y) / 2
    let y := (nose.y - shoulderY) / (earY - shoulderY)
    let yScaled := (y - Y_MIN) / (Y_MAX - Y_MIN)
    some (max 0 (min 1 yScaled))
  else
    none

/-- One frame of `runPrediction`, given the smoother state and the candidate
list returned by the pose provider.  `none` models a frame whose processing
dereferences a missing keypoint (a TypeError in the source). -/
def runPrediction (s : AppState) (poses : List Pose) : Option AppState :=
  if poses.length = 1 then
    match poses[0]? with
    | none => none
    | some pose =>
      match pose.keypoints[NOSE_KEYPOINT]?, pose.keypoints[LEFT_SHOULDER_KEYPOINT]?,
          pose.keypoints[RIGHT_SHOULDER_KEYPOINT]?, pose.keypoints[LEFT_EAR_KEYPOINT]?,
          pose.keypoints[RIGHT_EAR_KEYPOINT]? with
      | some nose, some leftShoulder, some rightShoulder, some leftEar, some rightEar =>
        let s1 := pushXInput s (xRaw nose leftShoulder rightShoulder)
        match yRaw nose leftEar rightEar leftShoulder rightShoulder with
        | some v => some (pushYInput s1 v)
        | none => some s1
      | _, _, _, _, _ => none
  else
    some (pushYInput (pushXInput s (1 / 2)) (1 / 2))

/-- Smoother state instrumented with push counters, used to state how many
times each signal is updated within one frame. -/
structure Trace where
  state : AppState
  xPushes : Nat
  yPushes : Nat
deriving DecidableEq, Repr

/-- `pushXInput` on the instrumented state: also counts the push. -/
def pushXInputT (t : Trace) (v : ℚ) : Trace :=
  ⟨pushXInput t.state v, t.xPushes + 1, t.yPushes⟩

/-- `pushYInput` on the instrumented state: also counts the push. -/
def pushYInputT (t : Trace) (v : ℚ) : Trace :=
  ⟨pushYInput t.state v, t.xPushes, t.yPushes + 1⟩

/-- `runPrediction` on the instrumented state: identical control flow, with
each `push` call counted. -/
def runPredictionT (t : Trace) (poses : List Pose) : Option Trace :=
  if poses.length = 1 then
    match poses[0]? with
    | none => none
    | some pose =>
      match pose.keypoints[NOSE_KEYPOINT]?, pose.keypoints[LEFT_SHOULDER_KEYPOINT]?,
          pose.keypoints[RIGHT_SHOULDER_KEYPOINT]?, pose.keypoints[LEFT_EAR_KEYPOINT]?,
          pose.keypoints[RIGHT_EAR_KEYPOINT]? with
      | some nose, some leftShoulder, some rightShoulder, some leftEar, some rightEar =>
        let t1 := pushXInputT t (xRaw nose leftShoulder rightShoulder)
        match yRaw nose leftEar rightEar leftShoulder rightShoulder with
        | some v => some (pushYInputT t1 v)
        | none => some t1
      | _, _, _, _, _ => none
  else
    some (pushYInputT (pushXInputT t (1 / 2)) (1 / 2))

/-- Whether the frame's vertical confidence gate passes: exactly one candidate
whose five required keypoints exist and all pass the threshold. -/
def yGateHolds (poses : List Pose) : Bool :=
  match poses[0]? with
  | some pose =>
    match pose.keypoints[NOSE_KEYPOINT]?, pose.keypoints[LEFT_SHOULDER_KEYPOINT]?,
        pose.keypoints[RIGHT_SHOULDER_KEYPOINT]?, pose.keypoints[LEFT_EAR_KEYPOINT]?,
        pose.keypoints[RIGHT_EAR_KEYPOINT]? with
    | some nose, some leftShoulder, some rightShoulder, some leftEar, some rightEar =>
      (yRaw nose leftEar rightEar leftShoulder rightShoulder).isSome
    | _, _, _, _, _ => false
  | none => false

/-- Iterated smoother updates of the horizontal signal with a constant raw
value, one per frame. -/
def iterPushX (s : AppState) (raw : ℚ) : Nat → AppState
  | 0 => s
  | n + 1 => pushXInput (iterPushX s raw n) raw

/-- The initial app state: `xInput = 0.5`, `yInput = 0.5`. -/
def initialApp : AppState := ⟨1 / 2, 1 / 2⟩

/-- The instrumented run and the plain run compute the same smoother state. -/
theorem runPredictionT_state (t : Trace) (poses : List Pose) :
    (runPredictionT t poses).map Trace.state = runPrediction t.state poses := by
  unfold runPredictionT runPrediction
  split
  · split
    · rfl
    · split
      · split
        · simp [pushYInputT, pushXInputT]
        · simp [pushXInputT]
      · rfl
  · simp [pushYInputT, pushXInputT]

/-- One smoother update from a value in [0, 1] with a raw value in [0, 1]
stays in [0, 1] (the update is a convex combination). -/
theorem lerp_bounds (a v : ℚ) (ha0 : 0 ≤ a) (ha1 : a ≤ 1) (hv0 : 0 ≤ v) (hv1 : v ≤ 1) :
    0 ≤ a + (v - a) * POSE_LERP_FACTOR ∧ a + (v - a) * POSE_LERP_FACTOR ≤ 1 := by
  unfold POSE_LERP_FACTOR
  constructor <;> nlinarith

/-- Any computed raw vertical estimate is clamped into [0, 1]. -/
theorem yRaw_bounds (nose leftEar rightEar leftShoulder rightShoulder : Keypoint) (v : ℚ)
    (h : yRaw nose leftEar rightEar leftShoulder rightShoulder = some v) :
    0 ≤ v ∧ v ≤ 1 := by
  unfold yRaw at h
  split at h
  · rw [Option.some_inj] at h
    subst h
    exact ⟨le_max_left 0 _, max_le (by norm_num) (min_le_left 1 _)⟩
  · simp at h

/-- When any of the five vertical confidences fails the gate, no raw vertical
estimate is produced. -/
theorem yRaw_none_of_lowconf (nose leftEar rightEar leftShoulder rightShoulder : Keypoint)
    (hlow : confOk nose.score = false ∨ confOk leftEar.score = false ∨
      confOk rightEar.score = false ∨ confOk leftShoulder.score = false ∨
      confOk rightShoulder.score = false) :
    yRaw nose leftEar rightEar leftShoulder rightShoulder = none := by
  unfold yRaw
  rw [if_neg]
  intro hc
  simp only [Bool.and_eq_true] at hc
  rcases hlow with h | h | h | h | h <;> simp [h] at hc

/-- Exhaustive description of the outcomes of one frame of `runPrediction`. -/
theorem runPrediction_cases (s : AppState) (poses : List Pose) (s' : AppState)
    (h : runPrediction s poses = some s') :
    (poses.length ≠ 1 ∧ s' = pushYInput (pushXInput s (1 / 2)) (1 / 2)) ∨
    (∃ pose nose leftShoulder rightShoulder leftEar rightEar,
      poses.length = 1 ∧ poses[0]? = some pose ∧
      pose.keypoints[NOSE_KEYPOINT]? = some nose ∧
      pose.keypoints[LEFT_SHOULDER_KEYPOINT]? = some leftShoulder ∧
      pose.keypoints[RIGHT_SHOULDER_KEYPOINT]? = some rightShoulder ∧
      pose.keypoints[LEFT_EAR_KEYPOINT]? = some leftEar ∧
      pose.keypoints[RIGHT_EAR_KEYPOINT]? = some rightEar ∧
      ((∃ v, yRaw nose leftEar rightEar leftShoulder rightShoulder = some v ∧
          s' = pushYInput (pushXInput s (xRaw nose leftShoulder rightShoulder)) v) ∨
       (yRaw nose leftEar rightEar leftShoulder rightShoulder = none ∧
          s' = pushXInput s (xRaw nose leftShoulder rightShoulder)))) := by
  unfold runPrediction at h
  split at h
  case isTrue hl =>
    split at h
    case h_1 => simp at h
    case h_2 pose hp0 =>
      split at h
      case h_1 nose leftShoulder rightShoulder leftEar rightEar hn hls hrs hle hre =>
        split at h
        case h_1 v hv =>
          right
          exact ⟨pose, nose, leftShoulder, rightShoulder, leftEar, rightEar, hl, hp0,
            hn, hls, hrs, hle, hre, Or.inl ⟨v, hv, (Option.some_inj.mp h).symm⟩⟩
        case h_2 hv =>
          right
          exact ⟨pose, nose, leftShoulder, rightShoulder, leftEar, rightEar, hl, hp0,
            hn, hls, hrs, hle, hre, Or.inr ⟨hv, (Option.some_inj.mp h).symm⟩⟩
      case h_2 => simp at h
  case isFalse hl =>
    exact Or.inl ⟨hl, (Option.some_inj.mp h).symm⟩

/-- Exhaustive description of the outcomes of one instrumented frame. -/
theorem runPredictionT_cases (t : Trace) (poses : List Pose) (t' : Trace)
    (h : runPredictionT t poses = some t') :
    (poses.length ≠ 1 ∧ t' = pushYInputT (pushXInputT t (1 / 2)) (1 / 2)) ∨
    (∃ pose nose leftShoulder rightShoulder leftEar rightEar,
      poses.length = 1 ∧ poses[0]? = some pose ∧
      pose.keypoints[NOSE_KEYPOINT]? = some nose ∧
      pose.keypoints[LEFT_SHOULDER_KEYPOINT]? = some leftShoulder ∧
      pose.keypoints[RIGHT_SHOULDER_KEYPOINT]? = some rightShoulder ∧
      pose.keypoints[LEFT_EAR_KEYPOINT]? = some leftEar ∧
      pose.keypoints[RIGHT_EAR_KEYPOINT]? = some rightEar ∧
      ((∃ v, yRaw nose leftEar rightEar leftShoulder rightShoulder = some v ∧
          t' = pushYInputT (pushXInputT t (xRaw nose leftShoulder rightShoulder)) v) ∨
       (yRaw nose leftEar rightEar leftShoulder rightShoulder = none ∧
          t' = pushXInputT t (xRaw nose leftShoulder rightShoulder)))) := by
  unfold runPredictionT at h
  split at h
  case isTrue hl =>
    split at h
    case h_1 => simp at h
    case h_2 pose hp0 =>
      split at h
      case h_1 nose leftShoulder rightShoulder leftEar rightEar hn hls hrs hle hre =>
        split at h
        case h_1 v hv =>
          right
          exact ⟨pose, nose, leftShoulder, rightShoulder, leftEar, rightEar, hl, hp0,
            hn, hls, hrs, hle, hre, Or.inl ⟨v, hv, (Option.some_inj.mp h).symm⟩⟩
        case h_2 hv =>
          right
          exact ⟨pose, nose, leftShoulder, rightShoulder, leftEar, rightEar, hl, hp0,
            hn, hls, hrs, hle, hre, Or.inr ⟨hv, (Option.some_inj.mp h).symm⟩⟩
      case h_2 => simp at h
  case isFalse hl =>
    exact Or.inl ⟨hl, (Option.some_inj.mp h).symm⟩

/-- List lookup succeeds exactly on in-range indices. -/
theorem keypoints_isSome_iff (l : List Keypoint) (i : Nat) :
    (l[i]?).isSome = true ↔ i < l.length := by
  constructor
  · intro hs
    by_contra hc
    rw [List.getElem?_eq_none (Nat.le_of_not_lt hc)] at hs
    simp at hs
  · intro hlt
    rw [List.getElem?_eq_getElem hlt]
    rfl

/-- Claim C4: with exactly one pose candidate, when the nose and both shoulder
confidences are at least 0.3 the raw horizontal estimate is exactly the
unclamped shoulder-span ratio (0 when the nose aligns with the left shoulder,
1 when it aligns with the right shoulder, given distinct shoulder abscissae);
when any of the three confidences is below 0.3 it is 0.5. -/
theorem claim4_xRaw (nose leftShoulder rightShoulder : Keypoint) :
    (confOk nose.score = true → confOk leftShoulder.score = true →
      confOk rightShoulder.score = true →
      xRaw nose leftShoulder rightShoulder =
        (nose.x - leftShoulder.x) / (rightShoulder.x - leftShoulder.x) ∧
      (leftShoulder.x ≠ rightShoulder.x → nose.x = leftShoulder.x →
        xRaw nose leftShoulder rightShoulder = 0) ∧
      (leftShoulder.x ≠ rightShoulder.x → nose.x = rightShoulder.x →
        xRaw nose leftShoulder rightShoulder = 1)) ∧
    (¬(confOk nose.score = true ∧ confOk leftShoulder.score = true ∧
        confOk rightShoulder.score = true) →
      xRaw nose leftShoulder rightShoulder = 1 / 2) := by
  constructor
  · intro h1 h2 h3
    have hx : xRaw nose leftShoulder rightShoulder =
        (nose.x - leftShoulder.x) / (rightShoulder.x - leftShoulder.x) := by
      unfold xRaw
      rw [if_pos (by simp [h1, h2, h3])]
    refine ⟨hx, ?_, ?_⟩
    · intro _ heq
      rw [hx, heq, sub_self, zero_div]
    · intro hne heq
      rw [hx, heq, div_self (sub_ne_zero.mpr (Ne.symm hne))]
  · intro h
    unfold xRaw
    rw [if_neg (by simp only [Bool.and_eq_true]; tauto)]

/-- Concrete instance of C4: all three confidences 1, nose a quarter of the
way across the shoulder span. -/
theorem claim4_witness :
    confOk (Keypoint.mk (1/4) 0 (some 1)).score = true ∧
    confOk (Keypoint.mk 0 0 (some 1)).score = true ∧
    confOk (Keypoint.mk 1 0 (some 1)).score = true ∧
    xRaw (Keypoint.mk (1/4) 0 (some 1)) (Keypoint.mk 0 0 (some 1)) (Keypoint.mk 1 0 (some 1)) =
      ((1:ℚ)/4 - 0) / (1 - 0) :=
  ⟨by norm_num [confOk, POSE_CONFIDENCE_THRESHOLD],
    by norm_num [confOk, POSE_CONFIDENCE_THRESHOLD],
    by norm_num [confOk, POSE_CONFIDENCE_THRESHOLD],
    ((claim4_xRaw (Keypoint.mk (1/4) 0 (some 1)) (Keypoint.mk 0 0 (some 1))
        (Keypoint.mk 1 0 (some 1))).1
      (by norm_num [confOk, POSE_CONFIDENCE_THRESHOLD])
      (by norm_num [confOk, POSE_CONFIDENCE_THRESHOLD])
      (by norm_num [confOk, POSE_CONFIDENCE_THRESHOLD])).1⟩

/-- Claim C5: with exactly one pose candidate and all five confidences at
least 0.3, the raw vertical estimate is `clamp((y - 0.6) / (1.4 - 0.6), 0, 1)`
where `y` is the nose height as a fraction of the shoulder-to-ear span, and
any computed raw vertical estimate lies in [0, 1]. -/
theorem claim5_yRaw (nose leftEar rightEar leftShoulder rightShoulder : Keypoint)
    (h1 : confOk leftShoulder.score = true) (h2 : confOk rightShoulder.score = true)
    (h3 : confOk leftEar.score = true) (h4 : confOk rightEar.score = true)
    (h5 : confOk nose.score = true) :
    yRaw nose leftEar rightEar leftShoulder rightShoulder =
      some (max 0 (min 1
        (((nose.y - (leftShoulder.y + rightShoulder.y) / 2) /
            ((leftEar.y + rightEar.y) / 2 - (leftShoulder.y + rightShoulder.y) / 2) -
          3 / 5) / (7 / 5 - 3 / 5)))) ∧
    ∀ v, yRaw nose leftEar rightEar leftShoulder rightShoulder = some v →
      0 ≤ v ∧ v ≤ 1 := by
  have hy : yRaw nose leftEar rightEar leftShoulder rightShoulder =
      some (max 0 (min 1
        (((nose.y - (leftShoulder.y + rightShoulder.y) / 2) /
            ((leftEar.y + rightEar.y) / 2 - (leftShoulder.y + rightShoulder.y) / 2) -
          3 / 5) / (7 / 5 - 3 / 5)))) := by
    unfold yRaw
    rw [if_pos (by simp [h1, h2, h3, h4, h5])]
    rfl
  refine ⟨hy, ?_⟩
  intro v hv
  rw [hy, Option.some_inj] at hv
  subst hv
  constructor
  · exact le_max_left 0 _
  · exact max_le (by norm_num) (min_le_left 1 _)

/-- Concrete instance of C5: nose halfway between shoulder height 0 and ear
height 2, scaling to a clamped raw vertical estimate of 0. -/
theorem claim5_witness :
    yRaw (Keypoint.mk 0 1 (some 1)) (Keypoint.mk 0 2 (some 1)) (Keypoint.mk 0 2 (some 1))
        (Keypoint.mk 0 0 (some 1)) (Keypoint.mk 0 0 (some 1)) = some 0 ∧
    (0:ℚ) ≤ 0 ∧ (0:ℚ) ≤ 1 :=
  ⟨by norm_num [yRaw, confOk, POSE_CONFIDENCE_THRESHOLD, Y_MIN, Y_MAX, max_def, min_def],
    (claim5_yRaw (Keypoint.mk 0 1 (some 1)) (Keypoint.mk 0 2 (some 1))
        (Keypoint.mk 0 2 (some 1)) (Keypoint.mk 0 0 (some 1)) (Keypoint.mk 0 0 (some 1))
        (by norm_num [confOk, POSE_CONFIDENCE_THRESHOLD])
        (by norm_num [confOk, POSE_CONFIDENCE_THRESHOLD])
        (by norm_num [confOk, POSE_CONFIDENCE_THRESHOLD])
        (by norm_num [confOk, POSE_CONFIDENCE_THRESHOLD])
        (by norm_num [confOk, POSE_CONFIDENCE_THRESHOLD])).2 0
      (by norm_num [yRaw, confOk, POSE_CONFIDENCE_THRESHOLD, Y_MIN, Y_MAX, max_def, min_def])⟩

/-- Claim C6: when the provider returns a candidate count other than exactly
one, the frame pushes the neutral value 0.5 to both smoother signals,
regardless of the prior state. -/
theorem claim6_neutral_reset (s : AppState) (poses : List Pose)
    (h : poses.length ≠ 1) :
    runPrediction s poses = some (pushYInput (pushXInput s (1 / 2)) (1 / 2)) := by
  unfold runPrediction
  rw [if_neg h]

/-- Concrete instance of C6: zero candidates from the state (0, 0); both
signals move a tenth of the way toward 0.5. -/
theorem claim6_witness :
    ([] : List Pose).length ≠ 1 ∧
    runPrediction (AppState.mk 0 0) [] =
      some (pushYInput (pushXInput (AppState.mk 0 0) (1 / 2)) (1 / 2)) ∧
    pushYInput (pushXInput (AppState.mk 0 0) (1 / 2)) (1 / 2) = AppState.mk (1/20) (1/20) :=
  ⟨by decide, claim6_neutral_reset (AppState.mk 0 0) [] (by decide),
    by norm_num [pushXInput, pushYInput, POSE_LERP_FACTOR]⟩

/-- Claim C7: every smoother update computes `signal + (raw - signal) * 0.1`
with the factor fixed at 0.1 for both axes; from signal 0.5, one update with
raw 1.0 yields exactly 0.55. -/
theorem claim7_lerp :
    (∀ (s : AppState) (v : ℚ),
      (pushXInput s v).xInput = s.xInput + (v - s.xInput) * POSE_LERP_FACTOR ∧
      (pushYInput s v).yInput = s.yInput + (v - s.yInput) * POSE_LERP_FACTOR) ∧
    POSE_LERP_FACTOR = 1 / 10 ∧
    (pushXInput (AppState.mk (1/2) (1/2)) 1).xInput = 1/2 + (1/2) * (1/10) ∧
    (pushXInput (AppState.mk (1/2) (1/2)) 1).xInput = 11/20 :=
  ⟨fun _ _ => ⟨rfl, rfl⟩, rfl,
    by norm_num [pushXInput, POSE_LERP_FACTOR],
    by norm_num [pushXInput, POSE_LERP_FACTOR]⟩

/-- Claim C10: with exactly one candidate the extractor reads keypoints at the
fixed indices 0, 3, 4, 5 and 6 without a bounds check; all five lookups
succeed exactly when the keypoint list has length at least 7. -/
theorem claim10_keypoint_bounds (pose : Pose) :
    ((pose.keypoints[NOSE_KEYPOINT]?).isSome = true ∧
     (pose.keypoints[LEFT_EAR_KEYPOINT]?).isSome = true ∧
     (pose.keypoints[RIGHT_EAR_KEYPOINT]?).isSome = true ∧
     (pose.keypoints[LEFT_SHOULDER_KEYPOINT]?).isSome = true ∧
     (pose.keypoints[RIGHT_SHOULDER_KEYPOINT]?).isSome = true) ↔
    7 ≤ pose.keypoints.length := by
  simp only [keypoints_isSome_iff]
  unfold NOSE_KEYPOINT LEFT_EAR_KEYPOINT RIGHT_EAR_KEYPOINT LEFT_SHOULDER_KEYPOINT
    RIGHT_SHOULDER_KEYPOINT
  omega

/-- A nose landmark one full shoulder-span beyond the right shoulder. -/
def cex1Nose : Keypoint := ⟨2, 0, some 1⟩

/-- Left shoulder at abscissa 0, full confidence. -/
def cex1LeftShoulder : Keypoint := ⟨0, 0, some 1⟩

/-- Right shoulder at abscissa 1, full confidence. -/
def cex1RightShoulder : Keypoint := ⟨1, 0, some 1⟩

/-- A pose whose nose lies outside the shoulder span, all gates passing. -/
def cex1Pose : Pose :=
  ⟨[cex1Nose, ⟨0, 0, none⟩, ⟨0, 0, none⟩, ⟨0, 1, some 1⟩, ⟨0, 1, some 1⟩,
    cex1LeftShoulder, cex1RightShoulder]⟩

/-- A pose passing the horizontal gate but failing the vertical gate (the ear
scores are absent). -/
def cex2Pose : Pose :=
  ⟨[⟨1/2, 0, some 1⟩, ⟨0, 0, none⟩, ⟨0, 0, none⟩, ⟨0, 1, none⟩, ⟨0, 1, none⟩,
    ⟨0, 0, some 1⟩, ⟨1, 0, some 1⟩]⟩

/-- A full-confidence landmark with all coordinates 0. -/
def degenerateKeypoint : Keypoint := ⟨0, 0, some 1⟩

/-- A pose in which every landmark coincides at the origin with confidence 1:
every gate passes, yet both extractor divisors are zero. -/
def degeneratePose : Pose :=
  ⟨[degenerateKeypoint, degenerateKeypoint, degenerateKeypoint, degenerateKeypoint,
    degenerateKeypoint, degenerateKeypoint, degenerateKeypoint]⟩

/-- Evaluation of the frame with the out-of-span nose from the initial state. -/
theorem cex1_run :
    runPrediction initialApp [cex1Pose] = some (AppState.mk (13/20) (9/20)) := by
  norm_num [runPrediction, initialApp, cex1Pose, cex1Nose, cex1LeftShoulder, cex1RightShoulder,
    NOSE_KEYPOINT, LEFT_EAR_KEYPOINT, RIGHT_EAR_KEYPOINT, LEFT_SHOULDER_KEYPOINT,
    RIGHT_SHOULDER_KEYPOINT, xRaw, yRaw, confOk, POSE_CONFIDENCE_THRESHOLD, Y_MIN, Y_MAX,
    POSE_LERP_FACTOR, pushXInput, pushYInput, max_def, min_def]

/-- Evaluation of the instrumented frame with absent ear scores from the
initial state: one horizontal push, no vertical push. -/
theorem cex2_runT :
    runPredictionT (Trace.mk initialApp 0 0) [cex2Pose] = some (Trace.mk initialApp 1 0) := by
  norm_num [runPredictionT, initialApp, cex2Pose, NOSE_KEYPOINT, LEFT_EAR_KEYPOINT,
    RIGHT_EAR_KEYPOINT, LEFT_SHOULDER_KEYPOINT, RIGHT_SHOULDER_KEYPOINT, xRaw, yRaw, confOk,
    POSE_CONFIDENCE_THRESHOLD, Y_MIN, Y_MAX, POSE_LERP_FACTOR, pushXInputT, pushYInputT,
    pushXInput, pushYInput, max_def, min_def]

/-- Claim C1 fails as stated: on the very first frame, with a fully confident
pose whose nose lies one shoulder-span past the right shoulder, the raw
horizontal estimate is 2, outside [0, 1], even though the frame is processed
normally. -/
theorem claim1_counterexample :
    cex1Pose.keypoints[NOSE_KEYPOINT]? = some cex1Nose ∧
    cex1Pose.keypoints[LEFT_SHOULDER_KEYPOINT]? = some cex1LeftShoulder ∧
    cex1Pose.keypoints[RIGHT_SHOULDER_KEYPOINT]? = some cex1RightShoulder ∧
    xRaw cex1Nose cex1LeftShoulder cex1RightShoulder = 2 ∧
    ¬((2:ℚ) ≤ 1) ∧
    runPrediction initialApp [cex1Pose] = some (AppState.mk (13/20) (9/20)) :=
  ⟨by simp [cex1Pose, NOSE_KEYPOINT],
   by simp [cex1Pose, LEFT_SHOULDER_KEYPOINT],
   by simp [cex1Pose, RIGHT_SHOULDER_KEYPOINT],
   by norm_num [xRaw, confOk, POSE_CONFIDENCE_THRESHOLD, cex1Nose, cex1LeftShoulder,
     cex1RightShoulder],
   by norm_num, cex1_run⟩

/-- Claim C1 amended: the raw vertical estimate is clamped, so the smoothed
`yInput` stays in [0, 1] across every processed frame whenever it starts
there; the raw horizontal estimate is unclamped, and the smoothed `xInput`
stays in [0, 1] only provided the pushed raw value lies in [0, 1]. -/
theorem claim1_amended :
    (∀ (s : AppState) (poses : List Pose) (s' : AppState),
        0 ≤ s.yInput → s.yInput ≤ 1 → runPrediction s poses = some s' →
        0 ≤ s'.yInput ∧ s'.yInput ≤ 1) ∧
    (∀ (s : AppState) (v : ℚ),
        0 ≤ s.xInput → s.xInput ≤ 1 → 0 ≤ v → v ≤ 1 →
        0 ≤ (pushXInput s v).xInput ∧ (pushXInput s v).xInput ≤ 1) := by
  constructor
  · intro s poses s' h0 h1 hrun
    rcases runPrediction_cases s poses s' hrun with ⟨-, rfl⟩ |
      ⟨pose, nose, leftShoulder, rightShoulder, leftEar, rightEar, -, -, -, -, -, -, -, hy⟩
    · simpa [pushYInput, pushXInput] using
        lerp_bounds s.yInput (1/2) h0 h1 (by norm_num) (by norm_num)
    · rcases hy with ⟨v, hv, rfl⟩ | ⟨-, rfl⟩
      · obtain ⟨hv0, hv1⟩ := yRaw_bounds _ _ _ _ _ _ hv
        simpa [pushYInput, pushXInput] using lerp_bounds s.yInput v h0 h1 hv0 hv1
      · simpa [pushXInput] using And.intro h0 h1
  · intro s v h0 h1 hv0 hv1
    simpa [pushXInput] using lerp_bounds s.xInput v h0 h1 hv0 hv1

/-- Concrete instance of the amended C1: a frame with no candidates from the
initial state keeps `yInput` in [0, 1]. -/
theorem claim1_witness :
    (0 ≤ initialApp.yInput ∧ initialApp.yInput ≤ 1) ∧
    runPrediction initialApp [] = some (AppState.mk (1/2) (1/2)) ∧
    (0 ≤ (AppState.mk (1/2) (1/2)).yInput ∧ (AppState.mk (1/2) (1/2)).yInput ≤ 1) := by
  have hrun : runPrediction initialApp [] = some (AppState.mk (1/2) (1/2)) := by
    norm_num [runPrediction, initialApp, pushXInput, pushYInput, POSE_LERP_FACTOR]
  refine ⟨⟨by norm_num [initialApp], by norm_num [initialApp]⟩, hrun, ?_⟩
  exact claim1_amended.1 initialApp [] _ (by norm_num [initialApp]) (by norm_num [initialApp])
    hrun

/-- Claim C2 fails as stated: a single-candidate frame whose ear scores are
absent pushes no vertical update, so `yInput` is updated zero times, not
exactly once. -/
theorem claim2_counterexample :
    runPredictionT (Trace.mk initialApp 0 0) [cex2Pose] = some (Trace.mk initialApp 1 0) ∧
    (Trace.mk initialApp 1 0).yPushes = 0 ∧ (0 : Nat) ≠ 0 + 1 :=
  ⟨cex2_runT, rfl, by decide⟩

/-- Claim C2 amended: `xInput` is updated exactly once per processed frame;
`yInput` is updated exactly once unless the frame has exactly one candidate
and its vertical confidence gate fails, in which case it is not updated. -/
theorem claim2_amended (t : Trace) (poses : List Pose) (t' : Trace)
    (h : runPredictionT t poses = some t') :
    t'.xPushes = t.xPushes + 1 ∧
    t'.yPushes =
      (if poses.length = 1 ∧ yGateHolds poses = false then t.yPushes else t.yPushes + 1) := by
  rcases runPredictionT_cases t poses t' h with ⟨hl, rfl⟩ |
    ⟨pose, nose, leftShoulder, rightShoulder, leftEar, rightEar, hl, hp0, hn, hls, hrs, hle,
      hre, hy⟩
  · refine ⟨rfl, ?_⟩
    rw [if_neg (fun hc => hl hc.1)]
    rfl
  · have hgate : yGateHolds poses =
        (yRaw nose leftEar rightEar leftShoulder rightShoulder).isSome := by
      unfold yGateHolds
      simp only [hp0, hn, hls, hrs, hle, hre]
    rcases hy with ⟨v, hv, rfl⟩ | ⟨hv, rfl⟩
    · refine ⟨rfl, ?_⟩
      rw [if_neg]
      · rfl
      · rintro ⟨-, hfalse⟩
        rw [hgate, hv] at hfalse
        simp at hfalse
    · refine ⟨rfl, ?_⟩
      rw [if_pos ⟨hl, by rw [hgate, hv]; rfl⟩]
      rfl

/-- Concrete instance of the amended C2: a zero-candidate frame updates each
signal exactly once. -/
theorem claim2_witness :
    runPredictionT (Trace.mk initialApp 0 0) [] = some (Trace.mk initialApp 1 1) ∧
    (Trace.mk initialApp 1 1).xPushes = (Trace.mk initialApp 0 0).xPushes + 1 ∧
    (Trace.mk initialApp 1 1).yPushes =
      (if ([] : List Pose).length = 1 ∧ yGateHolds [] = false then
        (Trace.mk initialApp 0 0).yPushes
      else (Trace.mk initialApp 0 0).yPushes + 1) := by
  have hrun : runPredictionT (Trace.mk initialApp 0 0) [] = some (Trace.mk initialApp 1 1) := by
    norm_num [runPredictionT, initialApp, pushXInputT, pushYInputT, pushXInput, pushYInput,
      POSE_LERP_FACTOR]
  exact ⟨hrun, claim2_amended _ [] _ hrun⟩

/-- Claim C3: on a single-candidate frame where any of the five required
confidences fails the 0.3 threshold, no vertical update is pushed and
`yInput` is left unchanged. -/
theorem claim3_vertical_skip (t : Trace) (pose : Pose) (t' : Trace)
    (nose leftEar rightEar leftShoulder rightShoulder : Keypoint)
    (hn : pose.keypoints[NOSE_KEYPOINT]? = some nose)
    (hle : pose.keypoints[LEFT_EAR_KEYPOINT]? = some leftEar)
    (hre : pose.keypoints[RIGHT_EAR_KEYPOINT]? = some rightEar)
    (hls : pose.keypoints[LEFT_SHOULDER_KEYPOINT]? = some leftShoulder)
    (hrs : pose.keypoints[RIGHT_SHOULDER_KEYPOINT]? = some rightShoulder)
    (hlow : confOk nose.score = false ∨ confOk leftEar.score = false ∨
      confOk rightEar.score = false ∨ confOk leftShoulder.score = false ∨
      confOk rightShoulder.score = false)
    (h : runPredictionT t [pose] = some t') :
    t'.yPushes = t.yPushes ∧ t'.state.yInput = t.state.yInput := by
  rcases runPredictionT_cases t [pose] t' h with ⟨hl, -⟩ |
    ⟨pose', nose', leftShoulder', rightShoulder', leftEar', rightEar', -, hp0, hn', hls', hrs',
      hle', hre', hy⟩
  · exact absurd rfl hl
  · obtain rfl : pose' = pose := by
      simp only [List.getElem?_cons_zero, Option.some_inj] at hp0
      exact hp0.symm
    rw [hn] at hn'
    rw [hls] at hls'
    rw [hrs] at hrs'
    rw [hle] at hle'
    rw [hre] at hre'
    obtain rfl : nose = nose' := Option.some_inj.mp hn'
    obtain rfl : leftShoulder = leftShoulder' := Option.some_inj.mp hls'
    obtain rfl : rightShoulder = rightShoulder' := Option.some_inj.mp hrs'
    obtain rfl : leftEar = leftEar' := Option.some_inj.mp hle'
    obtain rfl : rightEar = rightEar' := Option.some_inj.mp hre'
    have hynone := yRaw_none_of_lowconf nose leftEar rightEar leftShoulder rightShoulder hlow
    rcases hy with ⟨v, hv, -⟩ | ⟨-, rfl⟩
    · rw [hynone] at hv
      exact absurd hv (by simp)
    · exact ⟨rfl, rfl⟩

/-- Concrete instance of C3: the absent-ear-score pose leaves `yInput` at 0.5
with no vertical push. -/
theorem claim3_witness :
    (Trace.mk initialApp 1 0).yPushes = (Trace.mk initialApp 0 0).yPushes ∧
    (Trace.mk initialApp 1 0).state.yInput = (Trace.mk initialApp 0 0).state.yInput :=
  claim3_vertical_skip (Trace.mk initialApp 0 0) cex2Pose (Trace.mk initialApp 1 0)
    (Keypoint.mk (1/2) 0 (some 1)) (Keypoint.mk 0 1 none) (Keypoint.mk 0 1 none)
    (Keypoint.mk 0 0 (some 1)) (Keypoint.mk 1 0 (some 1))
    (by simp [cex2Pose, NOSE_KEYPOINT]) (by simp [cex2Pose, LEFT_EAR_KEYPOINT])
    (by simp [cex2Pose, RIGHT_EAR_KEYPOINT]) (by simp [cex2Pose, LEFT_SHOULDER_KEYPOINT])
    (by simp [cex2Pose, RIGHT_SHOULDER_KEYPOINT])
    (Or.inr (Or.inl rfl)) cex2_runT

/-- Gap to 1 after n repeated updates with raw value 1: it shrinks
geometrically with ratio 9/10. -/
theorem iterPushX_gap (s : AppState) (n : Nat) :
    1 - (iterPushX s 1 n).xInput = (9/10 : ℚ) ^ n * (1 - s.xInput) := by
  induction n with
  | zero => simp [iterPushX]
  | succ n ih =>
    have hstep : (iterPushX s 1 (n + 1)).xInput =
        (iterPushX s 1 n).xInput + (1 - (iterPushX s 1 n).xInput) * POSE_LERP_FACTOR := rfl
    calc 1 - (iterPushX s 1 (n + 1)).xInput
        = (1 - (iterPushX s 1 n).xInput) * (9/10) := by
          rw [hstep]
          unfold POSE_LERP_FACTOR
          ring
      _ = (9/10 : ℚ) ^ (n + 1) * (1 - s.xInput) := by
          rw [ih, pow_succ]
          ring

/-- Claim C8: starting strictly below 1, repeated updates with raw value 1
are strictly increasing, stay strictly below 1, and the gap to 1 eventually
falls below any positive bound. -/
theorem claim8_convergence (s : AppState) (h : s.xInput < 1) :
    (∀ n, (iterPushX s 1 n).xInput < (iterPushX s 1 (n + 1)).xInput) ∧
    (∀ n, (iterPushX s 1 n).xInput < 1) ∧
    (∀ ε : ℚ, 0 < ε → ∃ N, ∀ n, N ≤ n → 1 - (iterPushX s 1 n).xInput < ε) := by
  have hd : 0 < 1 - s.xInput := by linarith
  have hlt : ∀ n, (iterPushX s 1 n).xInput < 1 := by
    intro n
    have hg := iterPushX_gap s n
    have hp : 0 < (9/10 : ℚ) ^ n := by positivity
    nlinarith
  refine ⟨?_, hlt, ?_⟩
  · intro n
    have hstep : (iterPushX s 1 (n + 1)).xInput =
        (iterPushX s 1 n).xInput + (1 - (iterPushX s 1 n).xInput) * POSE_LERP_FACTOR := rfl
    rw [hstep]
    unfold POSE_LERP_FACTOR
    nlinarith [hlt n]
  · intro ε hε
    obtain ⟨N, hN⟩ := exists_pow_lt_of_lt_one (div_pos hε hd) (by norm_num : (9/10 : ℚ) < 1)
    refine ⟨N, fun n hn => ?_⟩
    have h1 : (9/10 : ℚ) ^ n ≤ (9/10 : ℚ) ^ N :=
      pow_le_pow_of_le_one (by norm_num) (by norm_num) hn
    rw [iterPushX_gap s n]
    calc (9/10 : ℚ) ^ n * (1 - s.xInput)
        ≤ (9/10 : ℚ) ^ N * (1 - s.xInput) := by nlinarith
      _ < ε / (1 - s.xInput) * (1 - s.xInput) := mul_lt_mul_of_pos_right hN hd
      _ = ε := div_mul_cancel₀ ε (ne_of_gt hd)

/-- Concrete instance of C8: from signal 0, the first update with raw 1
strictly increases the signal. -/
theorem claim8_witness :
    (AppState.mk 0 0).xInput < 1 ∧
    (iterPushX (AppState.mk 0 0) 1 0).xInput < (iterPushX (AppState.mk 0 0) 1 1).xInput :=
  ⟨by norm_num, (claim8_convergence (AppState.mk 0 0) (by norm_num)).1 0⟩

/-- Claim C9: there is a single-pose input passing every confidence gate on
which both unguarded divisors — the shoulder span and the ear-to-shoulder
height difference — are zero, so well-definedness of the raw estimates needs
the unchecked preconditions. -/
theorem claim9_unguarded_divisors :
    ∃ (pose : Pose) (nose leftEar rightEar leftShoulder rightShoulder : Keypoint),
      pose.keypoints[NOSE_KEYPOINT]? = some nose ∧
      pose.keypoints[LEFT_EAR_KEYPOINT]? = some leftEar ∧
      pose.keypoints[RIGHT_EAR_KEYPOINT]? = some rightEar ∧
      pose.keypoints[LEFT_SHOULDER_KEYPOINT]? = some leftShoulder ∧
      pose.keypoints[RIGHT_SHOULDER_KEYPOINT]? = some rightShoulder ∧
      confOk nose.score = true ∧ confOk leftEar.score = true ∧
      confOk rightEar.score = true ∧ confOk leftShoulder.score = true ∧
      confOk rightShoulder.score = true ∧
      rightShoulder.x - leftShoulder.x = 0 ∧
      (leftEar.y + rightEar.y) / 2 - (leftShoulder.y + rightShoulder.y) / 2 = 0 := by
  refine ⟨degeneratePose, degenerateKeypoint, degenerateKeypoint, degenerateKeypoint,
    degenerateKeypoint, degenerateKeypoint, ?_, ?_, ?_, ?_, ?_, ?_, ?_, ?_, ?_, ?_, ?_, ?_⟩ <;>
    norm_num [degeneratePose, degenerateKeypoint, confOk, POSE_CONFIDENCE_THRESHOLD,
      NOSE_KEYPOINT, LEFT_EAR_KEYPOINT, RIGHT_EAR_KEYPOINT, LEFT_SHOULDER_KEYPOINT,
      RIGHT_SHOULDER_KEYPOINT]

end DriveHard
